import Mathlib

/-!
Shallow embedding of the differential-testing core of `src/fuzz/differential_tester.py`
(class `DifferentialTester`) together with the data model of `src/fuzz/models.py`.

Python runtime values that flow through the tester (adapter response payloads,
declared `Any` in the source) are modelled by the inductive type `Json`:
dictionaries become ordered association lists (Python dicts preserve insertion
order and have unique keys), lists become `List Json`, numbers are modelled as
`Int` (the comparators only ever compare and count them), and `None` is
`Json.null`.  Python statements that can raise (`len` of a non-sized value,
`.lower()` on a non-string, `'id' in x` for non-iterable `x`, indexing) are
modelled in `Except Unit`, with `.error ()` standing for a raised exception
that propagates to the caller.
-/

/-- Model of a Python runtime value as produced by `json()` decoding of adapter
responses: `None`, booleans, numbers (modelled as integers), strings, lists
and string-keyed dictionaries in insertion order. -/
inductive Json where
  | null : Json
  | bool (b : Bool) : Json
  | num (n : Int) : Json
  | str (s : String) : Json
  | arr (elems : List Json) : Json
  | obj (fields : List (String × Json)) : Json

mutual

/-- Structural equality on modelled values; models Python `==` on the
decoded-JSON fragment that the tester manipulates. -/
def json_beq : Json → Json → Bool
  | .null, .null => true
  | .bool x, .bool y => x == y
  | .num x, .num y => x == y
  | .str x, .str y => x == y
  | .arr xs, .arr ys => json_list_beq xs ys
  | .obj xs, .obj ys => json_fields_beq xs ys
  | _, _ => false

/-- Pointwise equality of value lists. -/
def json_list_beq : List Json → List Json → Bool
  | [], [] => true
  | x :: xs, y :: ys => json_beq x y && json_list_beq xs ys
  | _, _ => false

/-- Pointwise equality of dictionaries as ordered association lists. -/
def json_fields_beq : List (String × Json) → List (String × Json) → Bool
  | [], [] => true
  | (k, v) :: xs, (k2, v2) :: ys => (k == k2) && json_beq v v2 && json_fields_beq xs ys
  | _, _ => false

end

mutual

/-- Computable structural size of a value, used as recursion fuel for the
`'result'`-wrapper recursion of the id extractor. -/
def json_size : Json → Nat
  | .null => 1
  | .bool _ => 1
  | .num _ => 1
  | .str _ => 1
  | .arr l => json_list_size l + 1
  | .obj f => json_fields_size f + 1

/-- Size of a list of values. -/
def json_list_size : List Json → Nat
  | [] => 0
  | x :: xs => json_size x + json_list_size xs + 1

/-- Size of a dictionary's entries. -/
def json_fields_size : List (String × Json) → Nat
  | [] => 0
  | (_, v) :: rest => json_size v + json_fields_size rest + 1

end

/-- First-match lookup in an association list; models `key in dict` /
`dict[key]` / `dict.get(key)` (real dicts never hold a key twice). -/
def assoc_lookup {α : Type} : List (String × α) → String → Option α
  | [], _ => none
  | p :: rest, key => if p.1 = key then some p.2 else assoc_lookup rest key

/-- Models `dict.get(key, default)`. -/
def assoc_getD (fields : List (String × Json)) (key : String) (dflt : Json) : Json :=
  (assoc_lookup fields key).getD dflt

/-- Substring test, modelling Python `needle in haystack` for strings. -/
def str_contains_sub (haystack needle : String) : Bool :=
  decide (List.IsInfix needle.toList haystack.toList)

/-- Models the Python membership test `needle in x` for a string `needle`:
key lookup for dicts, element equality for lists, substring test for strings,
and a raised `TypeError` (modelled as `.error ()`) for non-iterable values. -/
def py_contains_str (needle : String) : Json → Except Unit Bool
  | .obj fields => .ok ((assoc_lookup fields needle).isSome)
  | .arr elems => .ok (elems.any (fun e => json_beq e (Json.str needle)))
  | .str s => .ok (str_contains_sub s needle)
  | _ => .error ()

/-- Models Python subscription `x[key]` with a string key: dictionary lookup
(`KeyError` when absent), `TypeError` otherwise. -/
def py_index_str (key : String) : Json → Except Unit Json
  | .obj fields =>
    match assoc_lookup fields key with
    | some v => .ok v
    | none => .error ()
  | _ => .error ()

/-- Models Python `len(x)`: defined for strings, lists and dicts, raises
`TypeError` (modelled as `.error ()`) otherwise. -/
def py_len : Json → Except Unit Int
  | .str s => .ok s.length
  | .arr l => .ok l.length
  | .obj fields => .ok fields.length
  | _ => .error ()

/-- ASCII lowercase of one character (the status keywords compared by the
delete comparator are plain ASCII). -/
def lower_char (c : Char) : Char :=
  if 'A' ≤ c ∧ c ≤ 'Z' then Char.ofNat (c.toNat + 32) else c

/-- Models Python `str.lower()` on the ASCII fragment relevant to the
comparators. -/
def py_lower (s : String) : String :=
  String.mk (s.data.map lower_char)

/-- Whether a value may be put into a Python `set` (lists and dicts are
unhashable and make `set(...)` raise `TypeError`). -/
def py_hashable : Json → Bool
  | .arr _ => false
  | .obj _ => false
  | _ => true

mutual

/-- Models Python `repr` on the modelled values (quote escaping inside string
reprs is not modelled; no claim depends on the rendering of containers). -/
def py_repr : Json → String
  | .null => "None"
  | .bool b => if b then "True" else "False"
  | .num n => toString n
  | .str s => "\x27" ++ s ++ "\x27"
  | .arr l => "[" ++ py_repr_list l ++ "]"
  | .obj fields => "\x7b" ++ py_repr_fields fields ++ "\x7d"

/-- Comma-separated reprs of list elements. -/
def py_repr_list : List Json → String
  | [] => ""
  | [x] => py_repr x
  | x :: xs => py_repr x ++ ", " ++ py_repr_list xs

/-- Comma-separated reprs of dictionary entries. -/
def py_repr_fields : List (String × Json) → String
  | [] => ""
  | [(k, v)] => "\x27" ++ k ++ "\x27: " ++ py_repr v
  | (k, v) :: rest => "\x27" ++ k ++ "\x27: " ++ py_repr v ++ ", " ++ py_repr_fields rest

end

/-- Models Python `str(x)` for the modelled values. -/
def py_str (d : Json) : String :=
  match d with
  | .str s => s
  | _ => py_repr d

/-- `DatabaseResult` from `src/fuzz/differential_tester.py` (lines 16-23):
one adapter's outcome for one test.  `data` is `Json.null` on failure
(Python `None`); `execution_time` is modelled as a rational. -/
structure DatabaseResult where
  database : String
  success : Bool
  data : Json
  error : Option String := none
  execution_time : ℚ := 0

/-- Structured model of the inconsistency strings appended by the comparison
methods.  Each constructor corresponds to exactly one `inconsistencies.append`
site in the source and carries precisely the data interpolated into that
f-string, so "names both sets" / "naming the pair and the percentage" /
"listing the counts" are captured structurally. -/
inductive Inconsistency where
  | successFailureDivergence (succeeded failedDbs : List String)
  | insertCountMismatch (counts : List (String × Json))
  | searchOverlap (referenceDb otherDb : String) (overlapPercent : ℚ)
  | batchSearchOverlap (queryIdx : Nat) (referenceDb otherDb : String) (overlapPercent : ℚ)
  | deleteStatusMismatch (statuses : List (String × Bool))
  | mixedOpsCountMismatch (counts : List (String × Nat))
  | genericStatusMismatch (statuses : List (String × Bool))

/-- `TestResult` from `src/fuzz/models.py`. -/
structure TestResult where
  test_id : String
  operation : String
  inputs : Json
  results : List (String × Json)
  inconsistencies : List Inconsistency
  execution_time : List (String × ℚ)

/-- A loop over a list whose body may raise; a raise aborts the loop and
propagates (models Python `for` with raising statements in the body). -/
def foldE {α σ : Type} (f : σ → α → Except Unit σ) : σ → List α → Except Unit σ
  | acc, [] => .ok acc
  | acc, x :: xs =>
    match f acc x with
    | .error e => .error e
    | .ok acc2 => foldE f acc2 xs

/-- One step of the loop `for point in data['points']` in
`_extract_search_result_ids`: `if 'id' in point: result_ids.append(str(point['id']))`.
Both the membership test and the subscription may raise. -/
def point_step (acc : List String) (p : Json) : Except Unit (List String) :=
  match py_contains_str "id" p with
  | .error e => .error e
  | .ok b =>
    if b then
      match py_index_str "id" p with
      | .error e => .error e
      | .ok v => .ok (acc ++ [py_str v])
    else .ok acc

/-- One step of the inner loop of the Weaviate branch of
`_extract_search_result_ids`: `if isinstance(item, dict) and '_additional' in item:`
followed by the `'id' in additional` membership test and subscription. -/
def get_item_step (acc : List String) (item : Json) : Except Unit (List String) :=
  match item with
  | .obj f2 =>
    match assoc_lookup f2 "_additional" with
    | some addl => point_step acc addl
    | none => .ok acc
  | _ => .ok acc

/-- One step of `for collection_name in get_data.values()` in the Weaviate
branch: non-list values are skipped. -/
def get_value_step (acc : List String) (kv : String × Json) : Except Unit (List String) :=
  match kv.2 with
  | .arr items => foldE get_item_step acc items
  | _ => .ok acc

/-- The Weaviate branch of `_extract_search_result_ids`: `data.get('Get', {}).values()`
raises `AttributeError` when the value under `'Get'` is not a dict. -/
def extract_get : Json → Except Unit (List String)
  | .obj g => foldE get_value_step [] g
  | _ => .error ()

/-- The Qdrant branch of `_extract_search_result_ids`:
`for point in data['points']`. -/
def extract_points (pts : List Json) : Except Unit (List String) :=
  foldE point_step [] pts

/-- Whether a value is a Python list (`isinstance(x, list)`). -/
def is_arr : Json → Bool
  | .arr _ => true
  | _ => false

/-- The branch selected by the elif-chain of `_extract_search_result_ids` for
a dict payload (the first branch whose full condition holds). -/
inductive ObjShape where
  | shapeData (items : List Json)
  | shapeIds (ids : List Json)
  | shapeResult (inner : Json)
  | shapeGet (g : Json)
  | shapePoints (pts : List Json)
  | shapeNone

/-- Evaluation of the elif-chain conditions of `_extract_search_result_ids`
(lines 396-417) on a dict payload: `'data' in data and isinstance(data['data'], list)`,
then `'ids' in data and isinstance(data['ids'], list)`, then `'result' in data`,
then `'Get' in data`, then `'points' in data and isinstance(data['points'], list)`. -/
def obj_shape (fields : List (String × Json)) : ObjShape :=
  match assoc_lookup fields "data" with
  | some (.arr items) => .shapeData items
  | _ =>
    match assoc_lookup fields "ids" with
    | some (.arr ids) => .shapeIds ids
    | _ =>
      match assoc_lookup fields "result" with
      | some inner => .shapeResult inner
      | none =>
        match assoc_lookup fields "Get" with
        | some g => .shapeGet g
        | none =>
          match assoc_lookup fields "points" with
          | some (.arr pts) => .shapePoints pts
          | _ => .shapeNone

/-- Fuel-indexed body of `_extract_search_result_ids`: the `'result'` branch
recurses on the strictly smaller nested value, so `json_size data` steps always
suffice and the fuel-exhaustion branch is unreachable from the wrapper below. -/
def extract_ids_fuel : Nat → Json → Except Unit (List String)
  | 0, _ => .error ()
  | fuel + 1, data =>
    match data with
    | .obj fields =>
      match obj_shape fields with
      | .shapeData items =>
        .ok (items.filterMap (fun item =>
          match item with
          | .obj f2 =>
            match assoc_lookup f2 "id" with
            | some v => some (py_str v)
            | none => none
          | _ => none))
      | .shapeIds ids => .ok (ids.map py_str)
      | .shapeResult inner => extract_ids_fuel fuel inner
      | .shapeGet g => extract_get g
      | .shapePoints pts => extract_points pts
      | .shapeNone => .ok []
    | .arr elems =>
      match elems with
      | [] => .ok []
      | first :: _ =>
        if is_arr first then
          .ok ((elems.map (fun s =>
            match s with
            | .arr l => l.map py_str
            | _ => [])).flatten)
        else
          .ok (elems.map py_str)
    | _ => .ok []

/-- `DifferentialTester._extract_search_result_ids` (lines 390-434), translated
branch for branch.  The elif-chain takes the first branch whose full condition
holds (`obj_shape`); the `'result'` branch re-processes the nested value. -/
def extract_search_result_ids (data : Json) : Except Unit (List String) :=
  extract_ids_fuel (json_size data) data

/-- Values on which the membership test `'id' in x` followed by `x['id']`
(the body of the points loop, also reached through `_additional` in the
Weaviate branch) completes without raising: dicts always do; lists and
strings only when the membership test comes out false; other values make
the membership test itself raise. -/
def good_member : Json → Bool
  | .obj _ => true
  | .arr l => !(l.any (fun e => json_beq e (Json.str "id")))
  | .str s => !(str_contains_sub s "id")
  | _ => false

/-- Item condition of the Weaviate branch: the `'id' in additional` test and
subscription complete without raising. -/
def safe_get_item (item : Json) : Bool :=
  match item with
  | .obj f2 =>
    match assoc_lookup f2 "_additional" with
    | some addl => good_member addl
    | none => true
  | _ => true

/-- Value condition of the Weaviate branch: a list value must consist of
safe items; non-list values are skipped by the source. -/
def safe_get_value (kv : String × Json) : Bool :=
  match kv.2 with
  | .arr items => items.all safe_get_item
  | _ => true

/-- Payload shapes on which `_extract_search_result_ids` completes without
raising: the only raising paths are a non-dict value under `'Get'`, a
points-list or `_additional` element on which the `'id'` membership test or
subscription raises, and those same paths after any number of `'result'`
wrapper hops. -/
def safe_fuel : Nat → Json → Bool
  | 0, _ => false
  | fuel + 1, data =>
    match data with
    | .obj fields =>
      match obj_shape fields with
      | .shapeData _ => true
      | .shapeIds _ => true
      | .shapeResult inner => safe_fuel fuel inner
      | .shapeGet g =>
        match g with
        | .obj gg => gg.all safe_get_value
        | _ => false
      | .shapePoints pts => pts.all good_member
      | .shapeNone => true
    | _ => true

/-- The wrapper over `safe_fuel` with the always-sufficient fuel `json_size`. -/
def safe_payload (data : Json) : Bool :=
  safe_fuel (json_size data) data

/-- The per-adapter id set built in `_compare_search_results`:
`set(self._extract_search_result_ids(result.data))`, with the surrounding
`try/except` turning a raising extraction into the empty set. -/
def search_id_set (d : Json) : Finset String :=
  match extract_search_result_ids d with
  | .ok l => l.toFinset
  | .error _ => ∅

/-- The overlap percentage of `_compare_search_results` /
`_compare_batch_search_results`: `len(intersection) / max_len * 100`, with the
explicit `max_len == 0 → 0` special case.  (The Python float arithmetic is
exact rational arithmetic here up to rounding that can never cross the
`< 50` threshold, since `100*i/m = 50` exactly when `m = 2*i`, which is also
exact in binary floating point.) -/
def overlap_percent (referenceIds ids : Finset String) : ℚ :=
  let maxLen := max referenceIds.card ids.card
  if maxLen = 0 then 0
  else ((referenceIds ∩ ids).card : ℚ) / (maxLen : ℚ) * 100

/-- The emission condition shared by the two search comparators:
`overlap_percent < 50 and len(reference_ids) > 0 and len(ids) > 0`. -/
def search_flagged (referenceIds ids : Finset String) : Bool :=
  decide (overlap_percent referenceIds ids < 50) &&
    decide (0 < referenceIds.card) && decide (0 < ids.card)

/-- `DifferentialTester._compare_search_results` (lines 250-284): extract an id
set per adapter, take the first adapter of the dict as reference, and flag
every other adapter whose overlap with the reference is below 50% while both
sets are non-empty.  The loop skips entries whose key equals the reference
key, exactly like `if db_name != reference_db`. -/
def compare_search_results (results : List (String × DatabaseResult)) : List Inconsistency :=
  let search_results := results.map (fun nr => (nr.1, search_id_set nr.2.data))
  match search_results with
  | [] => []
  | (referenceDb, referenceIds) :: _ =>
    search_results.foldl (fun acc nr =>
      if nr.1 = referenceDb then acc
      else if search_flagged referenceIds nr.2 then
        acc ++ [.searchOverlap referenceDb nr.1 (overlap_percent referenceIds nr.2)]
      else acc) []

/-- The per-adapter, per-query id set of `_compare_batch_search_results`:
an id set is extracted from `result.data[query_idx]` when `result.data` is a
list long enough, and is empty otherwise (also when extraction raises). -/
def batch_set_at (d : Json) (queryIdx : Nat) : Finset String :=
  match d with
  | .arr l =>
    match l[queryIdx]? with
    | some item => search_id_set item
    | none => ∅
  | _ => ∅

/-- The body of the per-query-index loop of `_compare_batch_search_results`
(lines 300-329): build the per-adapter id sets for this index, and — when the
dict has more than one entry — flag low-overlap pairs against the reference
adapter's set (looked up by key, exactly like `query_results[reference_db]`). -/
def batch_query_step (referenceDb : String) (results : List (String × DatabaseResult))
    (acc : List Inconsistency) (queryIdx : Nat) : List Inconsistency :=
  let query_results := results.map (fun nr => (nr.1, batch_set_at nr.2.data queryIdx))
  if 1 < query_results.length then
    let referenceIds := (assoc_lookup query_results referenceDb).getD ∅
    query_results.foldl (fun acc2 nr =>
      if nr.1 = referenceDb then acc2
      else if search_flagged referenceIds nr.2 then
        acc2 ++ [.batchSearchOverlap queryIdx referenceDb nr.1
                  (overlap_percent referenceIds nr.2)]
      else acc2) acc
  else acc

/-- `DifferentialTester._compare_batch_search_results` (lines 286-331): when
the reference adapter (first of the dict) holds a list payload, apply the
overlap rule per query index over the reference list's length. -/
def compare_batch_search_results (results : List (String × DatabaseResult)) : List Inconsistency :=
  match results with
  | [] => []
  | (referenceDb, referenceRes) :: _ =>
    match referenceRes.data with
    | .arr referenceData =>
      (List.range referenceData.length).foldl (batch_query_step referenceDb results) []
    | _ => []

/-- The per-adapter accepted-count derivation of `_compare_insert_results`
(lines 230-241).  A dict (which always has `.get`, so the
`isinstance(result.data, dict)` branch of the source is unreachable) yields
its `insert_count` value if that key exists, else `len(data.get('insert_ids', []))`
if `status` exists (raising for a non-sized `insert_ids` value), else no count
at all; any non-dict value yields the default count 1. -/
def insert_count_of (d : Json) : Except Unit (Option Json) :=
  match d with
  | .obj fields =>
    if (assoc_lookup fields "insert_count").isSome then
      .ok (some (assoc_getD fields "insert_count" .null))
    else if (assoc_lookup fields "status").isSome then
      (py_len (assoc_getD fields "insert_ids" (.arr []))).map (fun n => some (.num n))
    else
      .ok none
  | _ => .ok (some (.num 1))

/-- One iteration of the `success_counts` loop of `_compare_insert_results`. -/
def insert_counts_step (acc : List (String × Json)) (nr : String × DatabaseResult) :
    Except Unit (List (String × Json)) :=
  match insert_count_of nr.2.data with
  | .error e => .error e
  | .ok (some c) => .ok (acc ++ [(nr.1, c)])
  | .ok none => .ok acc

/-- The `success_counts` dict of `_compare_insert_results`, in insertion order. -/
def insert_derived_counts (results : List (String × DatabaseResult)) :
    Except Unit (List (String × Json)) :=
  foldE insert_counts_step [] results

/-- Number of distinct values, modelling `len(set(l))` for hashable values. -/
def distinct_count (l : List Json) : Nat :=
  (l.foldl (fun acc x => if acc.any (fun y => json_beq x y) then acc else acc ++ [x]) []).length

/-- `DifferentialTester._compare_insert_results` (lines 224-248): derive the
counts, then `len(set(success_counts.values())) > 1` (which raises for an
unhashable count value) decides whether the single mismatch inconsistency is
emitted. -/
def compare_insert_results (results : List (String × DatabaseResult)) :
    Except Unit (List Inconsistency) :=
  match insert_derived_counts results with
  | .error e => .error e
  | .ok counts =>
    if counts.any (fun c => !(py_hashable c.2)) then .error ()
    else if 1 < distinct_count (counts.map Prod.snd) then
      .ok [.insertCountMismatch counts]
    else
      .ok []

/-- The per-adapter boolean derivation of `_compare_delete_results`
(lines 340-346).  A dict (which always has `.get`, making the
`isinstance(result.data, dict)` branch of the source unreachable) derives
`data.get('status', '').lower() in ['success', 'ok', 'completed']`, raising
`AttributeError` for a non-string status value; any non-dict value derives
the default `True`. -/
def delete_derived_bool (d : Json) : Except Unit Bool :=
  match d with
  | .obj fields =>
    match assoc_getD fields "status" (.str "") with
    | .str s => .ok (["success", "ok", "completed"].contains (py_lower s))
    | _ => .error ()
  | _ => .ok true

/-- One iteration of the `success_status` loop of `_compare_delete_results`. -/
def delete_status_step (acc : List (String × Bool)) (nr : String × DatabaseResult) :
    Except Unit (List (String × Bool)) :=
  match delete_derived_bool nr.2.data with
  | .error e => .error e
  | .ok b => .ok (acc ++ [(nr.1, b)])

/-- The `success_status` dict of `_compare_delete_results`, in insertion order. -/
def delete_derived_status (results : List (String × DatabaseResult)) :
    Except Unit (List (String × Bool)) :=
  foldE delete_status_step [] results

/-- `DifferentialTester._compare_delete_results` (lines 333-355): emit the
single status-mismatch inconsistency when `not all(success_status.values())` —
that is, whenever any derived boolean is false, not only on disagreement. -/
def compare_delete_results (results : List (String × DatabaseResult)) :
    Except Unit (List Inconsistency) :=
  match delete_derived_status results with
  | .error e => .error e
  | .ok statuses =>
    if statuses.all Prod.snd then .ok []
    else .ok [.deleteStatusMismatch statuses]

/-- `DifferentialTester._compare_mixed_operation_results` (lines 357-374):
count list entries per adapter (0 for non-lists) and flag when the counts are
not all the same. -/
def compare_mixed_operation_results (results : List (String × DatabaseResult)) :
    List Inconsistency :=
  let operation_counts := results.map (fun nr =>
    (nr.1, match nr.2.data with
           | .arr l => l.length
           | _ => 0))
  if 1 < ((operation_counts.map Prod.snd).dedup).length then
    [.mixedOpsCountMismatch operation_counts]
  else []

/-- `DifferentialTester._compare_generic_results` (lines 376-388): compare the
per-adapter success flags; emit the single mismatch inconsistency unless all
are true. -/
def compare_generic_results (results : List (String × DatabaseResult)) : List Inconsistency :=
  let success_status := results.map (fun nr => (nr.1, nr.2.success))
  if success_status.all Prod.snd then []
  else [.genericStatusMismatch success_status]

/-- The cross-cutting check at the top of `_compare_results` (lines 203-211):
if some adapters succeeded and some failed, append a single inconsistency
naming the keys of both sets (Python dict truthiness = non-emptiness). -/
def cross_cutting (results : List (String × DatabaseResult)) : List Inconsistency :=
  let successful_results := results.filter (fun nr => nr.2.success)
  let failed_results := results.filter (fun nr => !nr.2.success)
  if !successful_results.isEmpty && !failed_results.isEmpty then
    [.successFailureDivergence (successful_results.map Prod.fst) (failed_results.map Prod.fst)]
  else []

/-- The comparator dispatch of `_compare_results` (line 218):
`self.result_comparators.get(operation, self._compare_generic_results)` with
the table built in `__init__` (lines 30-37). -/
def op_comparator (operation : String) (results : List (String × DatabaseResult)) :
    Except Unit (List Inconsistency) :=
  if operation = "insert" then compare_insert_results results
  else if operation = "search" then .ok (compare_search_results results)
  else if operation = "delete" then compare_delete_results results
  else if operation = "batch_insert" then compare_insert_results results
  else if operation = "batch_search" then .ok (compare_batch_search_results results)
  else if operation = "mixed_operations" then .ok (compare_mixed_operation_results results)
  else .ok (compare_generic_results results)

/-- `DifferentialTester._compare_results` (lines 198-222): cross-cutting
success/failure check first, then — only when at least two adapters succeeded
— the operation-specific comparator over the successful results only.  An
exception raised by the operation comparator propagates (there is no
`try/except` in this method). -/
def compare_results (operation : String) (results : List (String × DatabaseResult)) :
    Except Unit (List Inconsistency) :=
  let successful_results := results.filter (fun nr => nr.2.success)
  let inconsistencies := cross_cutting results
  if successful_results.length < 2 then .ok inconsistencies
  else
    match op_comparator operation successful_results with
    | .error e => .error e
    | .ok operation_inconsistencies => .ok (inconsistencies ++ operation_inconsistencies)

/-- State-passing reading of `_compare_results`: the method only ever reads
`results` (the dict comprehensions on lines 203-204 build fresh dicts and no
statement assigns to `results`, to any `DatabaseResult` field, or to any key),
so its embedding returns the store it was given, unchanged. -/
def compare_results_st (operation : String) (store : List (String × DatabaseResult)) :
    Except Unit (List Inconsistency) × List (String × DatabaseResult) :=
  (compare_results operation store, store)

/-- What one adapter's task contributes to `asyncio.gather(..., return_exceptions=True)`
in `_execute_on_all_databases`: `_safe_execute` normally returns a
`DatabaseResult` (it converts any operation error into a failed one itself);
`raised` models a task that surfaced an exception object `e` in the gather
result list, handled by the `isinstance(result, Exception)` branch with
`error=str(e)` (and the dataclass defaults `data=None`, `execution_time=0.0`). -/
inductive AdapterOutcome where
  | result (r : DatabaseResult)
  | raised (msg : String)

/-- `DifferentialTester._execute_on_all_databases` (lines 60-94): one task per
configured client, gathered in order; if the gather/aggregation block itself
raises with message `e`, every configured adapter is marked as a failed
`DatabaseResult` with error `"Gather error: " ++ e`. -/
def execute_on_all_databases (outcomes : List (String × AdapterOutcome))
    (gatherFailure : Option String) : List (String × DatabaseResult) :=
  match gatherFailure with
  | some e =>
    outcomes.map (fun nc =>
      (nc.1, { database := nc.1, success := false, data := .null,
               error := some ("Gather error: " ++ e) }))
  | none =>
    outcomes.map (fun nc =>
      (nc.1, match nc.2 with
             | .result r => r
             | .raised msg =>
               { database := nc.1, success := false, data := .null, error := some msg }))

/-- `DifferentialTester.run_test` (lines 39-58).  The per-adapter behaviour of
`_safe_execute` on the generated input is abstracted as `outcomes` (the
adapters are external HTTP services); `elapsed` is the single shared
`time.time() - start_time` value that the source assigns to every adapter
(one aggregate duration bucket).  An exception raised by `_compare_results`
propagates out of `run_test` (modelled by `Except`). -/
def run_test (test_id operation : String) (inputs : Json)
    (outcomes : List (String × AdapterOutcome)) (gatherFailure : Option String)
    (elapsed : ℚ) : Except Unit TestResult :=
  let results := execute_on_all_databases outcomes gatherFailure
  match compare_results operation results with
  | .error e => .error e
  | .ok inconsistencies =>
    .ok { test_id := test_id
          operation := operation
          inputs := inputs
          results := results.map (fun nr => (nr.1, nr.2.data))
          inconsistencies := inconsistencies
          execution_time := results.map (fun nr => (nr.1, elapsed)) }

/-- Modelled from the spec: the accepted-count derivation exactly as claim C4
words it — "the explicit insert-count field if present, else the length of a
returned id list, else default 1" — used only to exhibit where the code
diverges from that wording. -/
def spec_insert_accepted_count (d : Json) : Json :=
  match d with
  | .obj fields =>
    match assoc_lookup fields "insert_count" with
    | some v => v
    | none =>
      match assoc_lookup fields "insert_ids" with
      | some (.arr l) => .num l.length
      | _ =>
        match assoc_lookup fields "ids" with
        | some (.arr l) => .num l.length
        | _ => .num 1
  | _ => .num 1

/-- Two successful adapters for an insert test; `db1`'s payload has a `status`
key and a non-sized `insert_ids` value, so `_compare_insert_results` evaluates
`len(5)` and raises `TypeError`. -/
def c1_outcomes : List (String × AdapterOutcome) :=
  [("db1", .result { database := "db1", success := true,
                     data := .obj [("status", .str "ok"), ("insert_ids", .num 5)] }),
   ("db2", .result { database := "db2", success := true,
                     data := .obj [("insert_count", .num 1)] })]

/-- Two successful delete results (one with a non-string `status` value, on
which the comparator's `.lower()` raises `AttributeError`) next to one failed
result. -/
def c2_results : List (String × DatabaseResult) :=
  [("a", { database := "a", success := true, data := .obj [("status", .num 1)] }),
   ("b", { database := "b", success := true, data := .obj [("status", .str "ok")] }),
   ("c", { database := "c", success := false, data := .null,
           error := some "connection refused" })]

/-- A safely-shaped payload exercising the `'result'` wrapper recursion and
the Qdrant points branch. -/
def c6_safe_demo : Json :=
  .obj [("result", .obj [("points", .arr [.obj [("id", .num 7)]])])]

/-- Successful search result with id list `[1,2,3]` (the spec's reference). -/
def c3_result_a : DatabaseResult :=
  { database := "a", success := true, data := .obj [("ids", .arr [.num 1, .num 2, .num 3])] }

/-- Successful search result with id list `[1,2,9]` (overlap 2 of 3). -/
def c3_result_b : DatabaseResult :=
  { database := "b", success := true, data := .obj [("ids", .arr [.num 1, .num 2, .num 9])] }

/-- Successful search result with id list `[9,10,11]` (no overlap). -/
def c3_result_c : DatabaseResult :=
  { database := "c", success := true, data := .obj [("ids", .arr [.num 9, .num 10, .num 11])] }

/-- The spec's worked search example as a comparator input map. -/
def c3_results : List (String × DatabaseResult) :=
  [("a", c3_result_a), ("b", c3_result_b), ("c", c3_result_c)]

/-- Two successful insert results: an empty dict and `{'insert_count': 5}`. -/
def c4_cx_results : List (String × DatabaseResult) :=
  [("a", { database := "a", success := true, data := .obj [] }),
   ("b", { database := "b", success := true, data := .obj [("insert_count", .num 5)] })]

/-- The spec's worked insert example: counts 5 and 4 for the same batch. -/
def c4_w_results : List (String × DatabaseResult) :=
  [("a", { database := "a", success := true, data := .obj [("insert_count", .num 5)] }),
   ("b", { database := "b", success := true, data := .obj [("insert_count", .num 4)] })]

/-- Two successful delete results both reporting `{'status': 'error'}`. -/
def c5_cx_results : List (String × DatabaseResult) :=
  [("a", { database := "a", success := true, data := .obj [("status", .str "error")] }),
   ("b", { database := "b", success := true, data := .obj [("status", .str "error")] })]

/-- The spec's delete example: `SUCCESS` and `ok` count as success
(case-insensitive), `error` counts as failure. -/
def c5_w_results : List (String × DatabaseResult) :=
  [("a", { database := "a", success := true, data := .obj [("status", .str "SUCCESS")] }),
   ("b", { database := "b", success := true, data := .obj [("status", .str "ok")] }),
   ("c", { database := "c", success := true, data := .obj [("status", .str "error")] })]

/-- Batch-search reference result: two query payloads with id lists `[1,2,3]`
and `[4]`. -/
def c8_result_a : DatabaseResult :=
  { database := "a", success := true,
    data := .arr [.obj [("ids", .arr [.num 1, .num 2, .num 3])],
                  .obj [("ids", .arr [.num 4])]] }

/-- Batch-search other result: a single query payload with id list
`[9,10,11]` — shorter than the reference, so index 1 is treated as empty. -/
def c8_result_b : DatabaseResult :=
  { database := "b", success := true,
    data := .arr [.obj [("ids", .arr [.num 9, .num 10, .num 11])]] }

/-- Two successful batch-search results of different lengths. -/
def c8_results : List (String × DatabaseResult) :=
  [("a", c8_result_a), ("b", c8_result_b)]

/-- One successful adapter outcome for the C9 witness. -/
def c9_outcomes : List (String × AdapterOutcome) :=
  [("a", .result { database := "a", success := true, data := .obj [("ids", .arr [.num 1])] })]

/-- One success next to one failure, for the unknown-operation witness. -/
def c10_results : List (String × DatabaseResult) :=
  [("a", { database := "a", success := true, data := .null }),
   ("b", { database := "b", success := false, data := .null, error := some "boom" })]

/-- C1: the spec's invariant — `run_test` always returns a `TestResult` whose
`results` and `execution_time` maps hold exactly one entry per configured
adapter — is the intent (§7 of the spec: the comparison subsystem is
"advisory, never throwing"; nothing in the core is fatal), but the code
violates it: with both adapters succeeding on an `insert` test, `db1`
answering `{'status': 'ok', 'insert_ids': 5}` and `db2` answering
`{'insert_count': 1}`, `_compare_insert_results` evaluates `len(5)`, the
`TypeError` propagates through `_compare_results`, and `run_test` raises
instead of returning any `TestResult`. -/
theorem c1_run_test_raises_on_exotic_insert_payload :
    run_test "t1" "insert" (.obj []) c1_outcomes none 0 = .error () := by
  rfl

/-- C2: the cross-cutting rule is the spec's intent, but the code can fail to
deliver it: on `c2_results` the success set `{a, b}` and failure set `{c}` are
both non-empty, so the claim demands a returned inconsistency list containing
exactly one divergence entry naming both sets; instead `_compare_delete_results`
evaluates `(1).lower()` on adapter `a`'s payload, the `AttributeError`
propagates out of `_compare_results`, and no inconsistency list is returned at
all. -/
theorem c2_compare_results_raises_despite_divergence :
    compare_results "delete" c2_results = .error () := by
  rfl

theorem foldE_ok_of_steps {α σ : Type} (f : σ → α → Except Unit σ) (p : α → Bool)
    (hf : ∀ acc a, p a = true → ∃ acc2, f acc a = .ok acc2) :
    ∀ (l : List α) (acc : σ), l.all p = true → ∃ acc2, foldE f acc l = .ok acc2 := by
  intro l
  induction l with
  | nil => exact fun acc _ => ⟨acc, rfl⟩
  | cons x xs ih =>
    intro acc hall
    simp only [List.all_cons, Bool.and_eq_true] at hall
    obtain ⟨acc2, h2⟩ := hf acc x hall.1
    rw [foldE, h2]
    exact ih acc2 hall.2

theorem point_step_ok (acc : List String) (p : Json) (h : good_member p = true) :
    ∃ acc2, point_step acc p = .ok acc2 := by
  cases p with
  | obj f =>
    cases hl : assoc_lookup f "id" with
    | some v =>
      exact ⟨acc ++ [py_str v], by
        simp [point_step, py_contains_str, py_index_str, hl]⟩
    | none =>
      exact ⟨acc, by simp [point_step, py_contains_str, py_index_str, hl]⟩
  | arr l =>
    simp only [good_member, Bool.not_eq_true'] at h
    exact ⟨acc, by simp [point_step, py_contains_str, h]⟩
  | str s =>
    simp only [good_member, Bool.not_eq_true'] at h
    exact ⟨acc, by simp [point_step, py_contains_str, h]⟩
  | null => simp [good_member] at h
  | bool b => simp [good_member] at h
  | num n => simp [good_member] at h

theorem get_item_step_ok (acc : List String) (item : Json)
    (h : safe_get_item item = true) : ∃ acc2, get_item_step acc item = .ok acc2 := by
  cases item with
  | obj f2 =>
    cases hl : assoc_lookup f2 "_additional" with
    | some addl =>
      simp only [safe_get_item, hl] at h
      obtain ⟨acc2, h2⟩ := point_step_ok acc addl h
      exact ⟨acc2, by simp [get_item_step, hl, h2]⟩
    | none => exact ⟨acc, by simp [get_item_step, hl]⟩
  | null => exact ⟨acc, rfl⟩
  | bool b => exact ⟨acc, rfl⟩
  | num n => exact ⟨acc, rfl⟩
  | str s => exact ⟨acc, rfl⟩
  | arr l => exact ⟨acc, rfl⟩

theorem get_value_step_ok (acc : List String) (kv : String × Json)
    (h : safe_get_value kv = true) : ∃ acc2, get_value_step acc kv = .ok acc2 := by
  obtain ⟨k, v⟩ := kv
  cases v with
  | arr items =>
    simp only [safe_get_value] at h
    obtain ⟨acc2, h2⟩ := foldE_ok_of_steps get_item_step safe_get_item
      get_item_step_ok items acc h
    exact ⟨acc2, by simpa [get_value_step] using h2⟩
  | null => exact ⟨acc, rfl⟩
  | bool b => exact ⟨acc, rfl⟩
  | num n => exact ⟨acc, rfl⟩
  | str s => exact ⟨acc, rfl⟩
  | obj f => exact ⟨acc, rfl⟩

theorem json_size_pos (d : Json) : 0 < json_size d := by
  cases d <;> simp [json_size]

theorem json_size_of_assoc_lookup (fs : List (String × Json)) (k : String) (v : Json)
    (hv : assoc_lookup fs k = some v) : json_size v < json_size (Json.obj fs) := by
  induction fs with
  | nil => simp [assoc_lookup] at hv
  | cons p rest ih =>
    obtain ⟨k1, v1⟩ := p
    simp only [assoc_lookup] at hv
    split at hv
    · cases hv
      simp only [json_size, json_fields_size]
      omega
    · have := ih hv
      simp only [json_size, json_fields_size] at this ⊢
      omega

theorem json_size_of_shape_result (fields : List (String × Json)) (inner : Json)
    (hs : obj_shape fields = .shapeResult inner) :
    json_size inner < json_size (Json.obj fields) := by
  have hres : assoc_lookup fields "result" = some inner := by
    unfold obj_shape at hs
    split at hs
    · exact absurd hs (by simp)
    · split at hs
      · exact absurd hs (by simp)
      · split at hs
        · next heq => cases hs; exact heq
        · split at hs
          · exact absurd hs (by simp)
          · split at hs
            · exact absurd hs (by simp)
            · exact absurd hs (by simp)
  exact json_size_of_assoc_lookup fields "result" inner hres

theorem extract_fuel_isOk_of_safe :
    ∀ (nf : Nat) (d : Json), json_size d ≤ nf →
      ∀ (ns : Nat), json_size d ≤ ns → safe_fuel ns d = true →
        (extract_ids_fuel nf d).isOk = true := by
  intro nf
  induction nf with
  | zero =>
    intro d hd
    have := json_size_pos d
    omega
  | succ nf ih =>
    intro d hd ns hns hsafe
    cases ns with
    | zero =>
      have := json_size_pos d
      omega
    | succ ns =>
      cases d with
      | obj fields =>
        simp only [safe_fuel] at hsafe
        simp only [extract_ids_fuel]
        cases hshape : obj_shape fields with
        | shapeData items => simp only [hshape]; rfl
        | shapeIds ids => simp only [hshape]; rfl
        | shapeResult inner =>
          simp only [hshape] at hsafe ⊢
          have hlt : json_size inner < json_size (Json.obj fields) :=
            json_size_of_shape_result fields inner hshape
          exact ih inner (by omega) ns (by omega) hsafe
        | shapeGet g =>
          simp only [hshape] at hsafe ⊢
          cases g with
          | obj gg =>
            obtain ⟨l, hl⟩ := foldE_ok_of_steps get_value_step safe_get_value
              get_value_step_ok gg [] hsafe
            simp only [extract_get, hl]
            rfl
          | null => simp at hsafe
          | bool b => simp at hsafe
          | num m => simp at hsafe
          | str s => simp at hsafe
          | arr l => simp at hsafe
        | shapePoints pts =>
          simp only [hshape] at hsafe ⊢
          obtain ⟨l, hl⟩ := foldE_ok_of_steps point_step good_member
            point_step_ok pts [] hsafe
          simp only [extract_points, hl]
          rfl
        | shapeNone => simp only [hshape]; rfl
      | arr elems =>
        simp only [extract_ids_fuel]
        cases elems with
        | nil => rfl
        | cons first rest =>
          dsimp only
          split <;> rfl
      | null => rfl
      | bool b => rfl
      | num m => rfl
      | str s => rfl

theorem extract_isOk_of_safe (d : Json) (h : safe_payload d = true) :
    (extract_search_result_ids d).isOk = true :=
  extract_fuel_isOk_of_safe (json_size d) d le_rfl (json_size d) le_rfl h

/-- C6: the claim that `_extract_search_result_ids` never raises on any
payload shape is false: on `{'points': [5]}` the Qdrant branch evaluates
`'id' in 5`, whose `TypeError` propagates out of the extractor (the callers
only contain it with their own `try/except`). -/
theorem c6_counterexample_points_raises :
    extract_search_result_ids (.obj [("points", .arr [.num 5])]) = .error () := by
  rfl

/-- C6 (amended): for every payload, the extractor terminates; on every
payload whose points-list/`_additional` elements admit the `'id'` membership
test and subscription and whose `'Get'` values are dicts (`safe_payload`), it
returns an ordered sequence of string identifiers without raising;
dict shapes matching none of the five branch conditions, plain strings,
numbers and `None` yield the empty sequence; and in particular the canonical
empty payload `{'data': []}` always yields the empty sequence. -/
theorem c6_extractor_amended :
    (∀ d : Json, safe_payload d = true → (extract_search_result_ids d).isOk = true) ∧
    extract_search_result_ids (.obj [("data", .arr [])]) = .ok [] ∧
    (∀ fields : List (String × Json), obj_shape fields = .shapeNone →
      extract_search_result_ids (.obj fields) = .ok []) ∧
    (∀ s : String, extract_search_result_ids (.str s) = .ok []) ∧
    (∀ n : Int, extract_search_result_ids (.num n) = .ok []) ∧
    extract_search_result_ids .null = .ok [] := by
  refine ⟨extract_isOk_of_safe, by rfl, ?_, fun s => rfl, fun n => rfl, rfl⟩
  intro fields hsh
  show extract_ids_fuel (json_fields_size fields + 1) (.obj fields) = .ok []
  simp only [extract_ids_fuel, hsh]

theorem c6_witness : (extract_search_result_ids c6_safe_demo).isOk = true :=
  c6_extractor_amended.1 c6_safe_demo (by rfl)

/-- C7: when the gather/aggregation machinery raises with message `e`,
`run_test` does not propagate: every configured adapter appears as a failed
`DatabaseResult` carrying the generic `"Gather error: ..."` description, and a
`TestResult` is still returned (the comparison step never raises on an
all-failed map, since fewer than two adapters succeeded). -/
theorem c7_gather_failure_degrades (outcomes : List (String × AdapterOutcome))
    (e test_id operation : String) (inputs : Json) (elapsed : ℚ) :
    (execute_on_all_databases outcomes (some e)).all
      (fun nr => !nr.2.success && decide (nr.2.error = some ("Gather error: " ++ e))) = true ∧
    (run_test test_id operation inputs outcomes (some e) elapsed).isOk = true := by
  have hfilter : (execute_on_all_databases outcomes (some e)).filter
      (fun nr => nr.2.success) = [] := by
    simp [execute_on_all_databases, List.filter_map, Function.comp]
  constructor
  · rw [List.all_eq_true]
    intro p hp
    simp only [execute_on_all_databases, List.mem_map] at hp
    obtain ⟨q, hq, rfl⟩ := hp
    simp
  · unfold run_test compare_results
    simp only [hfilter, List.length_nil]
    rfl

theorem search_fold_characterize (refName : String) (flag : Finset String → Bool)
    (mkc : String → Finset String → Inconsistency) :
    ∀ (l : List (String × Finset String)) (init : List Inconsistency),
      refName ∉ l.map Prod.fst →
      l.foldl (fun acc nr =>
          if nr.1 = refName then acc
          else if flag nr.2 then acc ++ [mkc nr.1 nr.2] else acc) init
        = init ++ l.filterMap (fun nr =>
            if flag nr.2 then some (mkc nr.1 nr.2) else none) := by
  intro l
  induction l with
  | nil =>
    intro init h
    simp
  | cons x xs ih =>
    intro init h
    simp only [List.map_cons, List.mem_cons, not_or] at h
    rw [List.foldl_cons, List.filterMap_cons]
    have hne : ¬(x.1 = refName) := fun he => h.1 he.symm
    rw [if_neg hne]
    cases hf : flag x.2
    · simp only [hf, Bool.false_eq_true, if_false]
      exact ih init h.2
    · simp only [hf, if_true]
      rw [ih _ h.2]
      simp

/-- C3: `_compare_search_results` extracts an id set per adapter, takes the
first adapter of the map as reference, and emits exactly one inconsistency —
naming the pair and the overlap percentage — for each other adapter, if and
only if `overlap_percent < 50` and both sets are non-empty
(`search_flagged`); two empty sets are never flagged since the percentage of
two empty sets is 0 but the non-emptiness conjuncts fail. -/
theorem c3_search_comparator (n0 : String) (r0 : DatabaseResult)
    (rest : List (String × DatabaseResult))
    (h : n0 ∉ rest.map Prod.fst) :
    compare_search_results ((n0, r0) :: rest) =
      rest.filterMap (fun nr =>
        if search_flagged (search_id_set r0.data) (search_id_set nr.2.data) then
          some (.searchOverlap n0 nr.1
                 (overlap_percent (search_id_set r0.data) (search_id_set nr.2.data)))
        else none) := by
  unfold compare_search_results
  dsimp only [List.map_cons]
  rw [List.foldl_cons, if_pos rfl]
  rw [search_fold_characterize n0
        (fun s => search_flagged (search_id_set r0.data) s)
        (fun n s => .searchOverlap n0 n (overlap_percent (search_id_set r0.data) s))
        (rest.map (fun nr => (nr.1, search_id_set nr.2.data))) []
        (by simpa using h)]
  rw [List.filterMap_map]
  rfl

theorem c3_witness :
    compare_search_results c3_results = [.searchOverlap "a" "c" 0] := by
  have h := c3_search_comparator "a" c3_result_a [("b", c3_result_b), ("c", c3_result_c)]
    (by decide)
  rw [show compare_search_results c3_results =
        compare_search_results (("a", c3_result_a) :: [("b", c3_result_b), ("c", c3_result_c)])
      from rfl, h]
  rw [List.filterMap_cons, List.filterMap_cons, List.filterMap_nil]
  have ha : search_id_set c3_result_a.data = ({"1", "2", "3"} : Finset String) := rfl
  have hb : search_id_set c3_result_b.data = ({"1", "2", "9"} : Finset String) := rfl
  have hc : search_id_set c3_result_c.data = ({"9", "10", "11"} : Finset String) := rfl
  have hab : (({"1", "2", "3"} : Finset String) ∩ ({"1", "2", "9"} : Finset String)).card = 2 := rfl
  have hac : (({"1", "2", "3"} : Finset String) ∩ ({"9", "10", "11"} : Finset String)).card = 0 := rfl
  have hca : ({"1", "2", "3"} : Finset String).card = 3 := rfl
  have hcb : ({"1", "2", "9"} : Finset String).card = 3 := rfl
  have hcc : ({"9", "10", "11"} : Finset String).card = 3 := rfl
  simp only [ha, hb, hc, search_flagged, overlap_percent, hab, hac, hca, hcb, hcc]
  norm_num

/-- C4 is false as stated: by the claim's derivation rule
(`spec_insert_accepted_count`) adapter `a`'s empty dict gets the default
count 1 and adapter `b` gets 5 — two distinct values, so exactly one
inconsistency containing both would be required; but the code derives no
count at all for a dict lacking both `insert_count` and `status` (a dict
always has `.get`, so the `isinstance(result.data, dict)` branch with its
`len(data.get('ids', []))` fallback is unreachable), leaving only `b`'s
count, and emits no inconsistency. -/
theorem c4_counterexample :
    spec_insert_accepted_count (.obj []) = .num 1 ∧
    spec_insert_accepted_count (.obj [("insert_count", .num 5)]) = .num 5 ∧
    insert_derived_counts c4_cx_results = .ok [("b", .num 5)] ∧
    compare_insert_results c4_cx_results = .ok [] :=
  ⟨rfl, rfl, rfl, rfl⟩

/-- C4 (amended): counts are derived per successful adapter only as follows —
a dict payload yields its `insert_count` value if that key is present, else
`len` of its `insert_ids` value (default `[]`) if a `status` key is present,
else no count at all; a non-dict payload yields the default count 1
(`insert_count_of`, folded by `insert_derived_counts`).  When every derived
count is hashable, exactly one inconsistency listing the per-adapter counts
is emitted if and only if more than one distinct count value occurs. -/
theorem c4_insert_comparator_amended (results : List (String × DatabaseResult))
    (counts : List (String × Json))
    (h : insert_derived_counts results = .ok counts)
    (hh : counts.all (fun c => py_hashable c.2) = true) :
    compare_insert_results results =
      .ok (if 1 < distinct_count (counts.map Prod.snd)
           then [.insertCountMismatch counts] else []) := by
  unfold compare_insert_results
  rw [h]
  have hnone : counts.any (fun c => !(py_hashable c.2)) = false := by
    rw [List.any_eq_false]
    intro x hx
    simp only [List.all_eq_true] at hh
    simp [hh x hx]
  simp only [hnone, Bool.false_eq_true, if_false]
  split <;> rfl

theorem c4_witness :
    compare_insert_results c4_w_results =
      .ok [.insertCountMismatch [("a", .num 5), ("b", .num 4)]] := by
  rw [c4_insert_comparator_amended c4_w_results [("a", .num 5), ("b", .num 4)] rfl rfl]
  rfl

/-- C5 is false as stated: both adapters derive the same boolean (false), so
by the claim ("emits ... if and only if the adapters do not all agree", and
in particular unanimous false yields no inconsistency) the list must be
empty; but the code tests `not all(success_status.values())` and emits the
mismatch inconsistency on unanimous false. -/
theorem c5_counterexample :
    delete_derived_status c5_cx_results = .ok [("a", false), ("b", false)] ∧
    compare_delete_results c5_cx_results =
      .ok [.deleteStatusMismatch [("a", false), ("b", false)]] :=
  ⟨rfl, rfl⟩

/-- C5 (amended): the per-adapter boolean is derived by `delete_derived_bool` —
for a dict payload, only from the `status` field: true exactly when its string
value lowercases to `success`/`ok`/`completed`, false when the field is
absent (the default `''` is not in the list), raising for a non-string value;
the boolean `success` field of the source's `isinstance` branch is never
consulted because a dict always has `.get`; a non-dict payload defaults to
true.  Exactly one inconsistency listing the per-adapter booleans is emitted
if and only if not every derived boolean is true — so unanimous false is
still flagged. -/
theorem c5_delete_comparator_amended (results : List (String × DatabaseResult))
    (statuses : List (String × Bool))
    (h : delete_derived_status results = .ok statuses) :
    compare_delete_results results =
      .ok (if statuses.all Prod.snd then [] else [.deleteStatusMismatch statuses]) := by
  unfold compare_delete_results
  simp only [h]
  split <;> rfl

theorem c5_witness :
    compare_delete_results c5_w_results =
      .ok [.deleteStatusMismatch [("a", true), ("b", true), ("c", false)]] := by
  rw [c5_delete_comparator_amended c5_w_results [("a", true), ("b", true), ("c", false)] rfl]
  rfl

theorem foldl_append_bind {α β : Type} (h : α → List β) :
    ∀ (l : List α) (init : List β),
      l.foldl (fun acc a => acc ++ h a) init = init ++ l.flatMap h := by
  intro l
  induction l with
  | nil =>
    intro init
    simp
  | cons x xs ih =>
    intro init
    rw [List.foldl_cons, ih, List.flatMap_cons, List.append_assoc]

theorem batch_query_step_eq (n0 : String) (r0 : DatabaseResult)
    (rest : List (String × DatabaseResult)) (q : Nat)
    (h : n0 ∉ rest.map Prod.fst) (acc : List Inconsistency) :
    batch_query_step n0 ((n0, r0) :: rest) acc q =
      acc ++ rest.filterMap (fun nr =>
        if search_flagged (batch_set_at r0.data q) (batch_set_at nr.2.data q) then
          some (.batchSearchOverlap q n0 nr.1
                 (overlap_percent (batch_set_at r0.data q) (batch_set_at nr.2.data q)))
        else none) := by
  unfold batch_query_step
  cases rest with
  | nil =>
    simp
  | cons y ys =>
    dsimp only [List.map_cons, List.length_cons]
    rw [if_pos (by omega)]
    have href : assoc_lookup ((n0, batch_set_at r0.data q) ::
        (y.1, batch_set_at y.2.data q) :: ys.map (fun nr => (nr.1, batch_set_at nr.2.data q)))
        n0 = some (batch_set_at r0.data q) := by
      simp [assoc_lookup]
    rw [href]
    simp only [Option.getD_some]
    rw [List.foldl_cons, if_pos rfl]
    have hmap : ((y :: ys).map (fun nr => (nr.1, batch_set_at nr.2.data q))).map Prod.fst
        = (y :: ys).map Prod.fst := by
      simp [List.map_map, Function.comp]
    rw [show ((y.1, batch_set_at y.2.data q) :: ys.map (fun nr => (nr.1, batch_set_at nr.2.data q)))
          = (y :: ys).map (fun nr => (nr.1, batch_set_at nr.2.data q)) from rfl]
    rw [search_fold_characterize n0
          (fun s => search_flagged (batch_set_at r0.data q) s)
          (fun n s => .batchSearchOverlap q n0 n (overlap_percent (batch_set_at r0.data q) s))
          ((y :: ys).map (fun nr => (nr.1, batch_set_at nr.2.data q))) acc
          (by rw [hmap]; simpa using h)]
    rw [List.filterMap_map]
    rfl

/-- C8: for a map of successful `batch_search` results whose reference
adapter (first in iteration order) holds a list payload, the comparator
applies the overlap rule independently per query index from 0 up to the
reference list's length; an adapter's id set at an index is obtained from its
own list when long enough (`batch_set_at`), is empty for indices at or beyond
its list's length, and is empty for non-list payloads; an inconsistency
naming the pair, the query index and the percentage is emitted exactly when
the overlap is below 50% and both sets at that index are non-empty. -/
theorem c8_batch_search_comparator (n0 : String) (r0 : DatabaseResult)
    (rest : List (String × DatabaseResult)) (refData : List Json)
    (hdata : r0.data = .arr refData)
    (h : n0 ∉ rest.map Prod.fst) :
    compare_batch_search_results ((n0, r0) :: rest) =
      (List.range refData.length).flatMap (fun queryIdx =>
        rest.filterMap (fun nr =>
          if search_flagged (batch_set_at r0.data queryIdx) (batch_set_at nr.2.data queryIdx) then
            some (.batchSearchOverlap queryIdx n0 nr.1
                   (overlap_percent (batch_set_at r0.data queryIdx)
                     (batch_set_at nr.2.data queryIdx)))
          else none)) ∧
    (∀ (l : List Json) (q : Nat), l.length ≤ q → batch_set_at (.arr l) q = ∅) ∧
    (∀ (d : Json) (q : Nat), is_arr d = false → batch_set_at d q = ∅) := by
  refine ⟨?_, ?_, ?_⟩
  · unfold compare_batch_search_results
    simp only [hdata]
    have hstep : batch_query_step n0 ((n0, r0) :: rest) =
        fun acc q => acc ++ rest.filterMap (fun nr =>
          if search_flagged (batch_set_at r0.data q) (batch_set_at nr.2.data q) then
            some (.batchSearchOverlap q n0 nr.1
                   (overlap_percent (batch_set_at r0.data q) (batch_set_at nr.2.data q)))
          else none) := by
      funext acc q
      exact batch_query_step_eq n0 r0 rest q h acc
    rw [hstep, foldl_append_bind]
    rw [List.nil_append, hdata]
  · intro l q hq
    show (match l[q]? with
          | some item => search_id_set item
          | none => (∅ : Finset String)) = ∅
    rw [List.getElem?_eq_none hq]
  · intro d q hd
    cases d <;> simp [is_arr, batch_set_at] at hd ⊢

theorem c8_witness :
    compare_batch_search_results c8_results = [.batchSearchOverlap 0 "a" "b" 0] := by
  have h := (c8_batch_search_comparator "a" c8_result_a [("b", c8_result_b)]
    [.obj [("ids", .arr [.num 1, .num 2, .num 3])], .obj [("ids", .arr [.num 4])]]
    rfl (by decide)).1
  rw [show compare_batch_search_results c8_results =
        compare_batch_search_results (("a", c8_result_a) :: [("b", c8_result_b)]) from rfl, h]
  rw [show List.range
        ([Json.obj [("ids", .arr [.num 1, .num 2, .num 3])],
          Json.obj [("ids", .arr [.num 4])]] : List Json).length = [0, 1] from rfl]
  rw [List.flatMap_cons, List.flatMap_cons, List.flatMap_nil]
  rw [List.filterMap_cons, List.filterMap_cons, List.filterMap_nil, List.filterMap_nil]
  have ha0 : batch_set_at c8_result_a.data 0 = ({"1", "2", "3"} : Finset String) := rfl
  have hb0 : batch_set_at c8_result_b.data 0 = ({"9", "10", "11"} : Finset String) := rfl
  have ha1 : batch_set_at c8_result_a.data 1 = ({"4"} : Finset String) := rfl
  have hb1 : batch_set_at c8_result_b.data 1 = (∅ : Finset String) := rfl
  have hc0 : (({"1", "2", "3"} : Finset String) ∩ ({"9", "10", "11"} : Finset String)).card = 0 :=
    rfl
  have hc1 : ({"1", "2", "3"} : Finset String).card = 3 := rfl
  have hc2 : ({"9", "10", "11"} : Finset String).card = 3 := rfl
  have hc3 : ({"4"} : Finset String).card = 1 := rfl
  have hc4 : (({"4"} : Finset String) ∩ (∅ : Finset String)).card = 0 := rfl
  have hc5 : (∅ : Finset String).card = 0 := rfl
  simp only [ha0, hb0, ha1, hb1, search_flagged, overlap_percent, hc0, hc1, hc2, hc3, hc4, hc5]
  norm_num

/-- C9: `_compare_results` reads the per-adapter `DatabaseResult` map without
mutating it.  The source method contains no assignment to `results`, to any
of its keys, or to any `DatabaseResult` field (the dict comprehensions on
lines 203-204 build fresh dicts), so its state-passing embedding
`compare_results_st` returns the store unchanged while computing exactly
`compare_results`; consequently the `TestResult` built by `run_test` exposes,
for every adapter, exactly the `data` payload and the key set that
`_execute_on_all_databases` produced, untouched by the comparison step. -/
theorem c9_compare_results_frame (operation : String)
    (store : List (String × DatabaseResult)) :
    (compare_results_st operation store).2 = store ∧
    (compare_results_st operation store).1 = compare_results operation store ∧
    (∀ (test_id : String) (inputs : Json) (outcomes : List (String × AdapterOutcome))
       (gatherFailure : Option String) (elapsed : ℚ) (l : List Inconsistency),
       compare_results operation (execute_on_all_databases outcomes gatherFailure) = .ok l →
       run_test test_id operation inputs outcomes gatherFailure elapsed =
         .ok { test_id := test_id, operation := operation, inputs := inputs,
               results := (execute_on_all_databases outcomes gatherFailure).map
                            (fun nr => (nr.1, nr.2.data)),
               inconsistencies := l,
               execution_time := (execute_on_all_databases outcomes gatherFailure).map
                                   (fun nr => (nr.1, elapsed)) }) := by
  refine ⟨rfl, rfl, ?_⟩
  intro test_id inputs outcomes gatherFailure elapsed l hok
  unfold run_test
  simp only [hok]

theorem c9_witness :
    run_test "t9" "search" .null c9_outcomes none 1 =
      .ok { test_id := "t9", operation := "search", inputs := .null,
            results := [("a", .obj [("ids", .arr [.num 1])])],
            inconsistencies := [],
            execution_time := [("a", 1)] } :=
  ((c9_compare_results_frame "search" []).2.2 "t9" Json.null c9_outcomes none 1 []
    (by rfl)).trans (by rfl)

/-- C10: for an operation tag outside the six known kinds, `_compare_results`
dispatches to `_compare_generic_results` over the successful results only;
every success flag in that filtered map is true, so the fallback's mismatch
branch is unreachable and the returned list is exactly the cross-cutting
check's output — at most the single success/failure-divergence entry. -/
theorem c10_unknown_operation (operation : String)
    (results : List (String × DatabaseResult))
    (h : operation ∉ (["insert", "search", "delete", "batch_insert", "batch_search",
                       "mixed_operations"] : List String)) :
    compare_results operation results = .ok (cross_cutting results) ∧
    compare_generic_results (results.filter (fun nr => nr.2.success)) = [] ∧
    (cross_cutting results).length ≤ 1 ∧
    (∀ i ∈ cross_cutting results, ∃ s f, i = .successFailureDivergence s f) := by
  simp only [List.mem_cons, List.not_mem_nil, or_false, not_or] at h
  obtain ⟨h1, h2, h3, h4, h5, h6⟩ := h
  have hgen : compare_generic_results (results.filter (fun nr => nr.2.success)) = [] := by
    unfold compare_generic_results
    have hall : ((results.filter (fun nr => nr.2.success)).map
        (fun nr => (nr.1, nr.2.success))).all Prod.snd = true := by
      rw [List.all_eq_true]
      intro p hp
      simp only [List.mem_map] at hp
      obtain ⟨q, hq, rfl⟩ := hp
      exact (List.mem_filter.mp hq).2
    simp only [hall, if_true]
  refine ⟨?_, hgen, ?_, ?_⟩
  · unfold compare_results
    by_cases hlen : (results.filter (fun nr => nr.2.success)).length < 2
    · rw [if_pos hlen]
    · rw [if_neg hlen]
      unfold op_comparator
      rw [if_neg h1, if_neg h2, if_neg h3, if_neg h4, if_neg h5, if_neg h6, hgen]
      simp
  · unfold cross_cutting
    dsimp only
    split
    · simp
    · simp
  · intro i hi
    unfold cross_cutting at hi
    dsimp only at hi
    split at hi
    · simp only [List.mem_singleton] at hi
      exact ⟨_, _, hi⟩
    · simp at hi

theorem c10_witness :
    compare_results "describe_collection" c10_results =
      .ok [.successFailureDivergence ["a"] ["b"]] :=
  ((c10_unknown_operation "describe_collection" c10_results (by decide)).1).trans (by rfl)
